import Mathlib

/-!
Verification of the `uplevel-ai-agents` frontend chat subsystem against its
specification. The definitions below are a shallow embedding of
`src/portal/frontend/src/store/chat-store.ts`,
`src/portal/frontend/src/components/chat/chat-interface.tsx` and the agent
store, together with a model of the ECMAScript primitives they rely on
(truthiness, template rendering, `JSON.stringify`/`JSON.parse`,
`Date.prototype.toISOString`, `String.prototype.trim`, decimal rendering of
`Date.now()`). The orchestrator's intent classifier, whose code is not part
of the frontend sources, is modelled from the specification where a claim
requires it.
-/

/-! ### JavaScript runtime values -/

/-- A JavaScript runtime value as far as the chat frontend manipulates them:
the JSON scalars, arrays and objects, plus `undefined` and `Date` instances
(numbers are modelled as integers; the code under scrutiny never does float
arithmetic on them). -/
inductive JSValue where
  | null
  | undefined
  | bool (b : Bool)
  | num (n : Int)
  | str (s : String)
  | date (ms : Nat)
  | arr (elems : List JSValue)
  | obj (fields : List (String × JSValue))

/-- JavaScript truthiness of a value, as used by `||` and `if`.
The empty string and the number 0 are falsy; objects, arrays and dates are
always truthy. -/
def jsTruthy : JSValue → Bool
  | .null => false
  | .undefined => false
  | .bool b => b
  | .num n => !(n == 0)
  | .str s => !(s == "")
  | .date _ => true
  | .arr _ => true
  | .obj _ => true

/-- JavaScript `a || b`: returns `a` when `a` is truthy, otherwise `b`. -/
def jsOr (a b : JSValue) : JSValue := if jsTruthy a then a else b

/-- Property access `o[k]` on an object's field list: the field's value when
present, `undefined` when absent. -/
def jsGetField (fields : List (String × JSValue)) (k : String) : JSValue :=
  match fields.find? (fun kv => kv.fst == k) with
  | some kv => kv.snd
  | none => .undefined

/-- Models `String.prototype.trim`: strips leading and trailing whitespace. -/
def jsTrim (s : String) : String :=
  ⟨((s.data.dropWhile Char.isWhitespace).reverse.dropWhile Char.isWhitespace).reverse⟩

/-- The elements of a JavaScript array value (`[]` for non-arrays; in the
code under scrutiny `.map` is only reached on values already known truthy
array-shaped). -/
def jsArrElems : JSValue → List JSValue
  | .arr xs => xs
  | _ => []

/-- Rendering of a value by a template literal (`${v}`), restricted to the
scalar cases the frontend actually pipes through templates; the claims only
ever exercise the string case. -/
def jsToDisplay : JSValue → String
  | .str s => s
  | .num n => toString n
  | .bool b => if b then "true" else "false"
  | .null => "null"
  | .undefined => "undefined"
  | .date _ => "[date]"
  | .arr _ => "[array]"
  | .obj _ => "[object Object]"

/-! ### `JSON.stringify` followed by `JSON.parse`

`zustand/persist` serializes the partialized state with `JSON.stringify`
and rehydrates it with `JSON.parse` (no replacer/reviver is configured in
`chat-store.ts`). The composite is modelled value-to-value:
`Date` instances are serialized via their `toJSON` (an ISO-8601 string) and
come back as plain strings; `undefined`-valued object fields are dropped;
`undefined` array elements become `null`; everything else round-trips. -/

/-- Zero-pads a decimal string on the left to width `w`. -/
def padZero (w : Nat) (s : String) : String :=
  ⟨List.replicate (w - s.length) '0' ++ s.data⟩

/-- Models `Date.prototype.toISOString` (hence `Date.prototype.toJSON`) for
epoch-millisecond values: the proleptic-Gregorian civil date via the
standard era/day-of-era decomposition, rendered as
`YYYY-MM-DDTHH:mm:ss.sssZ`. -/
def toISO (ms : Nat) : String :=
  let s := ms / 1000
  let msPart := ms % 1000
  let days := s / 86400
  let sod := s % 86400
  let hh := sod / 3600
  let mi := (sod % 3600) / 60
  let ss := sod % 60
  let z := days + 719468
  let era := z / 146097
  let doe := z % 146097
  let yoe := (doe - doe / 1460 + doe / 36524 - doe / 146096) / 365
  let y := yoe + era * 400
  let doy := doe - (365 * yoe + yoe / 4 - yoe / 100)
  let mp := (5 * doy + 2) / 153
  let d := doy - (153 * mp + 2) / 5 + 1
  let m := if mp < 10 then mp + 3 else mp - 9
  let year := if m ≤ 2 then y + 1 else y
  padZero 4 (Nat.repr year) ++ "-" ++ padZero 2 (Nat.repr m) ++ "-" ++
    padZero 2 (Nat.repr d) ++ "T" ++ padZero 2 (Nat.repr hh) ++ ":" ++
    padZero 2 (Nat.repr mi) ++ ":" ++ padZero 2 (Nat.repr ss) ++ "." ++
    padZero 3 (Nat.repr msPart) ++ "Z"

mutual

/-- `JSON.parse(JSON.stringify(v))` as a single value-level transformation. -/
def jsonRoundTrip : JSValue → JSValue
  | .null => .null
  | .undefined => .undefined
  | .bool b => .bool b
  | .num n => .num n
  | .str s => .str s
  | .date ms => .str (toISO ms)
  | .arr xs => .arr (jsonRoundTripElems xs)
  | .obj fs => .obj (jsonRoundTripFields fs)

/-- Array elements under `JSON.stringify`: `undefined` becomes `null`. -/
def jsonRoundTripElems : List JSValue → List JSValue
  | [] => []
  | .undefined :: xs => .null :: jsonRoundTripElems xs
  | x :: xs => jsonRoundTrip x :: jsonRoundTripElems xs

/-- Object fields under `JSON.stringify`: `undefined`-valued fields are
dropped. -/
def jsonRoundTripFields : List (String × JSValue) → List (String × JSValue)
  | [] => []
  | (_, .undefined) :: fs => jsonRoundTripFields fs
  | (k, v) :: fs => (k, jsonRoundTrip v) :: jsonRoundTripFields fs

end

/-! ### Chat store data model (`chat-store.ts`) -/

/-- A JavaScript `Date` instance, identified by its epoch-millisecond value.
All dates the store creates come from `new Date()` / `Date.now()`, which are
non-negative. -/
structure JSDate where
  ms : Nat
  deriving DecidableEq, Repr

/-- `role: 'user' | 'assistant'` of `ChatMessage`. -/
inductive Role where
  | user
  | assistant
  deriving DecidableEq, Repr

/-- `metadata.type` values. The interface in `chat-store.ts` declares
`'query' | 'pl-statement' | 'analysis'`; `chat-interface.tsx` additionally
stores the literal `'orchestrator'` at runtime, so it is included. -/
inductive MetaType where
  | query
  | plStatement
  | analysis
  | orchestrator
  deriving DecidableEq, Repr

/-- `ChatMessage.metadata`. The interface annotates `error?: string`, but the
only write (`chat-interface.tsx`, error path) stores the boolean literal
`true`, so the runtime value is modelled as a boolean. The extra
`orchestratorData` payload stored on orchestrator replies is outside the
declared interface and not modelled; no claim refers to it. -/
structure MessageMetadata where
  type : Option MetaType := none
  loading : Option Bool := none
  error : Option Bool := none
  deriving DecidableEq, Repr

/-- `ChatMessage` of `chat-store.ts`. -/
structure ChatMessage where
  id : String
  content : String
  role : Role
  timestamp : JSDate
  agentId : Option String := none
  metadata : Option MessageMetadata := none
  deriving DecidableEq, Repr

/-- `ChatSession` of `chat-store.ts`. -/
structure ChatSession where
  id : String
  title : String
  messages : List ChatMessage
  createdAt : JSDate
  updatedAt : JSDate
  agentId : String
  deriving DecidableEq, Repr

/-- The mutable store state: `currentSession`, `sessions`, `isLoading`. -/
structure ChatState where
  currentSession : Option ChatSession
  sessions : List ChatSession
  isLoading : Bool
  deriving DecidableEq, Repr

/-- The argument of `addMessage`: `Omit<ChatMessage, 'id' | 'timestamp'>`. -/
structure MessageData where
  content : String
  role : Role
  agentId : Option String := none
  metadata : Option MessageMetadata := none
  deriving DecidableEq, Repr

/-- The `Partial<ChatMessage>` updates actually passed to `updateMessage` by
the frontend: a replacement `content` and/or a replacement `metadata`
(`none` means the key is not present in the update object). -/
structure MessageUpdate where
  content : Option String := none
  metadata : Option MessageMetadata := none
  deriving DecidableEq, Repr

/-- The object spread `{ ...msg, ...updates }` for the update shapes above. -/
def applyUpdate (m : ChatMessage) (u : MessageUpdate) : ChatMessage :=
  { m with
    content := u.content.getD m.content,
    metadata := match u.metadata with
      | some md => some md
      | none => m.metadata }

/-- `addMessage` of `chat-store.ts`. `now` is the value of `Date.now()` (and
of `new Date()`) at the time of the call; the generated id is the template
literal `msg_${Date.now()}`. Returns the state unchanged when there is no
current session. -/
def addMessage (st : ChatState) (now : Nat) (messageData : MessageData) : ChatState :=
  match st.currentSession with
  | none => st
  | some currentSession =>
    let newMessage : ChatMessage :=
      { content := messageData.content,
        role := messageData.role,
        agentId := messageData.agentId,
        metadata := messageData.metadata,
        id := "msg_" ++ Nat.repr now,
        timestamp := ⟨now⟩ }
    let updatedSession : ChatSession :=
      { currentSession with
        messages := currentSession.messages ++ [newMessage],
        updatedAt := ⟨now⟩ }
    { st with
      currentSession := some updatedSession,
      sessions := st.sessions.map (fun s =>
        if s.id == currentSession.id then updatedSession else s) }

/-- `updateMessage` of `chat-store.ts`: rewrites every message of the current
session whose id equals `messageId` by spreading `updates` over it, and
refreshes the session's `updatedAt`. Returns the state unchanged when there
is no current session. -/
def updateMessage (st : ChatState) (now : Nat) (messageId : String)
    (updates : MessageUpdate) : ChatState :=
  match st.currentSession with
  | none => st
  | some currentSession =>
    let updatedSession : ChatSession :=
      { currentSession with
        messages := currentSession.messages.map (fun msg =>
          if msg.id == messageId then applyUpdate msg updates else msg),
        updatedAt := ⟨now⟩ }
    { st with
      currentSession := some updatedSession,
      sessions := st.sessions.map (fun s =>
        if s.id == currentSession.id then updatedSession else s) }

/-- `deleteSession` of `chat-store.ts`. -/
def deleteSession (st : ChatState) (sessionId : String) : ChatState :=
  { st with
    sessions := st.sessions.filter (fun s => !(s.id == sessionId)),
    currentSession := match st.currentSession with
      | some c => if c.id == sessionId then none else some c
      | none => none }

/-- `setLoading` of `chat-store.ts`. -/
def setLoading (st : ChatState) (loading : Bool) : ChatState :=
  { st with isLoading := loading }

/-! ### Agent store (`agent-store`, `src/unnamed/part_004`) -/

/-- `Agent['type']`. -/
inductive AgentType where
  | financial
  | salesMarketing
  | research
  | general
  | orchestrator
  deriving DecidableEq, Repr

/-- `Agent['status']`. -/
inductive AgentStatus where
  | online
  | offline
  | busy
  deriving DecidableEq, Repr

/-- `Agent` of the agent store. -/
structure Agent where
  id : String
  name : String
  description : String
  capabilities : List String
  status : AgentStatus
  avatar : Option String := none
  endpoint : String
  type : AgentType
  deriving DecidableEq, Repr

/-- The agent store state. -/
structure AgentState where
  agents : List Agent
  selectedAgent : Option Agent
  deriving DecidableEq, Repr

/-- The default orchestrator agent (`defaultAgents[0]`); the endpoint is the
literal fallback used when the environment variable is unset. -/
def orchestratorAgent : Agent :=
  { id := "central-orchestrator",
    name := "AI Orchestrator (Multi-Agent)",
    description := "Intelligent coordinator that combines insights from multiple specialized agents",
    capabilities :=
      ["Multi-Agent Coordination", "Collaborative Analysis", "Cross-Domain Insights",
       "Complex Query Processing", "Integrated Financial + Sales Intelligence",
       "Strategic Recommendations", "Workflow Management"],
    status := .online,
    endpoint := "http://localhost:8001",
    type := .orchestrator }

/-- `defaultAgents[1]`. -/
def financialAgent : Agent :=
  { id := "financial-intelligence",
    name := "Financial Intelligence Agent",
    description := "Advanced financial analysis, P&L statements, and business insights",
    capabilities :=
      ["Financial Analysis", "P&L Statement Generation", "Business Intelligence",
       "Market Research", "Risk Assessment"],
    status := .online,
    endpoint := "https://uplevel-financial-agent-834012950450.us-central1.run.app",
    type := .financial }

/-- `defaultAgents[2]`. -/
def salesAgent : Agent :=
  { id := "sales-marketing",
    name := "Sales & Marketing Intelligence Agent",
    description := "Sales pipeline management, lead generation, and marketing analytics",
    capabilities :=
      ["Lead Management", "Sales Pipeline Analysis", "Campaign Performance",
       "Customer Segmentation", "Revenue Forecasting", "Contract Management",
       "Payment Tracking"],
    status := .online,
    endpoint := "http://localhost:8003",
    type := .salesMarketing }

/-- `defaultAgents[3]` (placeholder research agent). -/
def researchAgent : Agent :=
  { id := "research-specialist",
    name := "Research Specialist",
    description := "In-depth research and data analysis across various domains",
    capabilities :=
      ["Market Research", "Competitive Analysis", "Industry Reports", "Data Mining"],
    status := .offline,
    endpoint := "",
    type := .research }

/-- The `defaultAgents` configuration list. -/
def defaultAgents : List Agent :=
  [orchestratorAgent, financialAgent, salesAgent, researchAgent]

/-- The store's creation-time state: default agents, orchestrator selected. -/
def defaultAgentState : AgentState :=
  { agents := defaultAgents, selectedAgent := some orchestratorAgent }

/-- `updateAgentStatus` of the agent store: rewrites the status of every
listed agent whose id matches, and mirrors the change onto `selectedAgent`
when its id matches. -/
def updateAgentStatus (st : AgentState) (agentId : String)
    (status : AgentStatus) : AgentState :=
  { agents := st.agents.map (fun agent =>
      if agent.id == agentId then { agent with status := status } else agent),
    selectedAgent := match st.selectedAgent with
      | some a => if a.id == agentId then some { a with status := status } else some a
      | none => none }

/-! ### Chat interface send flow (`chat-interface.tsx`, `handleSendMessage`) -/

/-- The fixed apology fallback used when a reply carries no truthy payload
under either accepted field name. -/
def apologyFallback : String := "I apologize, but I couldn't generate a response."

/-- The loading placeholder text shown while awaiting a reply. -/
def loadingTextFor (agent : Agent) : String :=
  if agent.type == .orchestrator then
    "Coordinating with specialized agents to provide comprehensive insights..."
  else
    "Analyzing your request..."

/-- The preferred reply field: `'answer'` for the orchestrator, `'response'`
for every other agent type. -/
def responseFieldFor (agent : Agent) : String :=
  if agent.type == .orchestrator then "answer" else "response"

/-- The request body sent to the agent. For the orchestrator the
`user_id` is `currentSession.userId || 'frontend_user'`; `ChatSession` has
no `userId` field, so the fallback literal is always taken. -/
def mkRequestBody (agent : Agent) (query sessionId : String) : List (String × JSValue) :=
  if agent.type == .orchestrator then
    [("query", .str query), ("session_id", .str sessionId),
     ("user_id", .str "frontend_user"), ("context", .obj [])]
  else
    [("query", .str query), ("conversation_id", .str sessionId)]

/-- The reply-content extraction
`data[responseField] || data.answer || data.response || apology`
(JavaScript `||` associates to the left). -/
def extractContent (agent : Agent) (data : List (String × JSValue)) : JSValue :=
  jsOr (jsOr (jsOr (jsGetField data (responseFieldFor agent))
    (jsGetField data "answer")) (jsGetField data "response")) (.str apologyFallback)

/-- `agent.replace('_', ' ')`: JavaScript `String.prototype.replace` with a
string pattern replaces only the first occurrence. -/
def replaceFirstUnderscore (s : String) : String :=
  match s.splitOn "_" with
  | [] => s
  | [x] => x
  | x :: y :: rest => x ++ " " ++ String.intercalate "_" (y :: rest)

/-- The per-agent display-name mapping used when enhancing orchestrator
replies (the `switch` inside `agents_involved.map`; elements are rendered as
strings first, matching the string-typed callback). -/
def agentDisplayName (agent : JSValue) : String :=
  let s := jsToDisplay agent
  if s == "financial_intelligence" then "Financial Intelligence"
  else if s == "sales_marketing" then "Sales & Marketing"
  else replaceFirstUnderscore s

/-- The user-friendly enhancement of orchestrator replies carrying
`query_type` and `agents_involved`. -/
def enhanceContent (agent : Agent) (data : List (String × JSValue))
    (responseContent : String) : String :=
  if agent.type == .orchestrator && jsTruthy (jsGetField data "query_type")
      && jsTruthy (jsGetField data "agents_involved") then
    let agentNames := (jsArrElems (jsGetField data "agents_involved")).map agentDisplayName
    responseContent ++ "\n\n---\n📊 **Query Type**: " ++
      jsToDisplay (jsGetField data "query_type") ++
      "\n🤖 **Agents Consulted**: " ++ String.intercalate ", " agentNames
  else responseContent

/-- The outcome of the awaited `fetch`/`response.json()` as the `try` block
observes it: `ok data` is a successful HTTP reply with parsed JSON object
`data`; `error e` is the caught exception's message (`API Error: <status>`
for a non-ok HTTP status, or the transport/JSON failure message; a non-Error
throw yields the literal `Unknown error`). -/
def FetchOutcome : Type := Except String (List (String × JSValue))

/-- `handleSendMessage` of `chat-interface.tsx` as a state transformer.
`t1` is `Date.now()` inside the first `addMessage`, `t2` the one taken for
`loadingMessageId`, `t3` the one inside the placeholder `addMessage`, `t4`
the one inside the final `updateMessage`. The input-box state is UI-local
and not part of the store, so it is not modelled. -/
def handleSendMessage (chat : ChatState) (selectedAgent : Option Agent)
    (inputValue : String) (t1 t2 t3 t4 : Nat) (result : FetchOutcome) : ChatState :=
  match selectedAgent, chat.currentSession with
  | some agent, some _ =>
    if jsTrim inputValue == "" then chat
    else
      let st1 := addMessage chat t1
        { content := inputValue, role := .user, agentId := some agent.id }
      let st2 := setLoading st1 true
      let loadingMessageId := "msg_loading_" ++ Nat.repr t2
      let st3 := addMessage st2 t3
        { content := loadingTextFor agent, role := .assistant,
          agentId := some agent.id, metadata := some { loading := some true } }
      let st4 := match result with
        | .ok data =>
          let responseContent := jsToDisplay (extractContent agent data)
          let enhancedContent := enhanceContent agent data responseContent
          updateMessage st3 t4 loadingMessageId
            { content := some enhancedContent,
              metadata := some
                { loading := some false,
                  type := some (if agent.type == .orchestrator then .orchestrator else .query) } }
        | .error e =>
          updateMessage st3 t4 loadingMessageId
            { content := some
                ("I apologize, but I encountered an error while processing your request: " ++ e),
              metadata := some { loading := some false, error := some true } }
      setLoading st4 false
  | _, _ => chat

/-! ### Persisted state (`persist` / `partialize` in `chat-store.ts`)

The store persists `{ sessions, currentSession }`. The persisted document is
the JavaScript runtime value of that object; writing and re-reading it goes
through `JSON.stringify`/`JSON.parse` (`jsonRoundTrip`). -/

/-- The slice of the store selected for persistence. -/
structure PersistedState where
  sessions : List ChatSession
  currentSession : Option ChatSession
  deriving DecidableEq, Repr

/-- The string stored for a `role` value. -/
def roleStr : Role → String
  | .user => "user"
  | .assistant => "assistant"

/-- The string stored for a `metadata.type` value. -/
def metaTypeStr : MetaType → String
  | .query => "query"
  | .plStatement => "pl-statement"
  | .analysis => "analysis"
  | .orchestrator => "orchestrator"

/-- An optional object field: absent when the value is `none`. -/
def optJSONField (k : String) : Option JSValue → List (String × JSValue)
  | some v => [(k, v)]
  | none => []

/-- The field list of a `metadata` object's runtime representation. -/
def metadataFields (md : MessageMetadata) : List (String × JSValue) :=
  optJSONField "type" (md.type.map (fun t => .str (metaTypeStr t))) ++
    optJSONField "loading" (md.loading.map .bool) ++
    optJSONField "error" (md.error.map .bool)

/-- The runtime representation of a `metadata` object. -/
def metadataToJS (md : MessageMetadata) : JSValue :=
  .obj (metadataFields md)

/-- The runtime representation of a `ChatMessage`; the `timestamp` is a
`Date` instance. -/
def messageToJS (m : ChatMessage) : JSValue :=
  .obj ([("id", .str m.id), ("content", .str m.content),
    ("role", .str (roleStr m.role)), ("timestamp", .date m.timestamp.ms)] ++
    optJSONField "agentId" (m.agentId.map .str) ++
    optJSONField "metadata" (m.metadata.map metadataToJS))

/-- The runtime representation of a `ChatSession`; `createdAt`/`updatedAt`
are `Date` instances. -/
def sessionToJS (s : ChatSession) : JSValue :=
  .obj [("id", .str s.id), ("title", .str s.title),
    ("messages", .arr (s.messages.map messageToJS)),
    ("createdAt", .date s.createdAt.ms), ("updatedAt", .date s.updatedAt.ms),
    ("agentId", .str s.agentId)]

/-- The runtime representation of the partialized state as written. -/
def persistedToJS (st : PersistedState) : JSValue :=
  .obj [("sessions", .arr (st.sessions.map sessionToJS)),
    ("currentSession", match st.currentSession with
      | some s => sessionToJS s
      | none => .null)]

/-- The representation of a `ChatMessage` as it comes back from rehydration:
identical except that the `timestamp` is the ISO-8601 string `JSON.parse`
produces instead of a `Date`. -/
def messageToJSReloaded (m : ChatMessage) : JSValue :=
  .obj ([("id", .str m.id), ("content", .str m.content),
    ("role", .str (roleStr m.role)), ("timestamp", .str (toISO m.timestamp.ms))] ++
    optJSONField "agentId" (m.agentId.map .str) ++
    optJSONField "metadata" (m.metadata.map metadataToJS))

/-- The representation of a `ChatSession` after rehydration: `createdAt` and
`updatedAt` come back as ISO-8601 strings, and so do all message
timestamps. -/
def sessionToJSReloaded (s : ChatSession) : JSValue :=
  .obj [("id", .str s.id), ("title", .str s.title),
    ("messages", .arr (s.messages.map messageToJSReloaded)),
    ("createdAt", .str (toISO s.createdAt.ms)),
    ("updatedAt", .str (toISO s.updatedAt.ms)),
    ("agentId", .str s.agentId)]

/-- The rehydrated partialized state: the original with every `Date`
replaced by its ISO-8601 string. -/
def persistedToJSReloaded (st : PersistedState) : JSValue :=
  .obj [("sessions", .arr (st.sessions.map sessionToJSReloaded)),
    ("currentSession", match st.currentSession with
      | some s => sessionToJSReloaded s
      | none => .null)]

/-! ### Intent classifier, modelled from the spec

Modelled from the spec: the orchestrator's Intent Classifier (spec 4.1) is
not among the sources under `src/` — the repository ships only the frontend,
deployment scripts and documentation of the orchestrator — so the contract
`classify(query, registry)` is modelled from the specification's words:
keyword-overlap scoring against each agent's capability keywords,
conjunction markers with at least two relevant agents giving
`collaborative`, ordering markers giving `sequential` with per-step
re-classification, tie-breaks by longer capability tag then lexical agent
id, and an `unclassified` sentinel when no agent clears the threshold. -/

/-- A registry entry: agent id and capability keyword set. -/
structure RegisteredAgent where
  id : String
  capabilities : List String
  deriving DecidableEq, Repr

/-- The three query types plus the `unclassified` sentinel. -/
inductive QueryType where
  | singleAgent
  | collaborative
  | sequential
  | unclassified
  deriving DecidableEq, Repr

/-- A classification result: type, target agent ids in order, and for
sequential queries the ordered steps (text, target agent id). -/
structure Classification where
  type : QueryType
  targetAgents : List String
  steps : List (String × String)
  deriving DecidableEq, Repr

/-- The words of a query, lowercased. -/
def queryWords (q : String) : List String := q.toLower.splitOn " "

/-- Keyword-overlap score of a query against one agent's capability set. -/
def keywordScore (q : String) (a : RegisteredAgent) : Nat :=
  (a.capabilities.filter (fun k => (queryWords q).contains k.toLower)).length

/-- Tag specificity: the length of the agent's longest capability tag. -/
def maxCapabilityLen (a : RegisteredAgent) : Nat :=
  (a.capabilities.map String.length).foldr max 0

/-- Whether `b` is strictly preferred to `a` for query `q`: higher score,
then more specific capability tag, then lexically smaller id. -/
def preferredOver (q : String) (b a : RegisteredAgent) : Bool :=
  keywordScore q b > keywordScore q a ||
    (keywordScore q b == keywordScore q a &&
      (maxCapabilityLen b > maxCapabilityLen a ||
        (maxCapabilityLen b == maxCapabilityLen a && decide (b.id < a.id))))

/-- The best-scoring relevant agent (score at least 1) under the
deterministic tie-break order, scanning the registry in order. -/
def bestAgent (q : String) (registry : List RegisteredAgent) : Option RegisteredAgent :=
  registry.foldl (fun acc a =>
    match acc with
    | none => if keywordScore q a != 0 then some a else none
    | some b => if keywordScore q a != 0 && preferredOver q a b then some a else some b)
    none

/-- Conjunction markers: "and", "also", "both". -/
def hasConjunctionMarker (q : String) : Bool :=
  ["and", "also", "both"].any (fun m => (queryWords q).contains m)

/-- Ordering markers: a "first ... then ..." phrasing. -/
def hasOrderingMarker (q : String) : Bool :=
  (queryWords q).contains "first" && (queryWords q).contains "then"

/-- `classify(query, registry)`, modelled from the spec as described above. -/
def classify (q : String) (registry : List RegisteredAgent) : Classification :=
  let relevant := registry.filter (fun a => keywordScore q a != 0)
  if hasOrderingMarker q then
    let parts := q.toLower.splitOn " then "
    let steps := parts.map (fun p => (p, ((bestAgent p registry).map RegisteredAgent.id).getD ""))
    { type := .sequential, targetAgents := steps.map Prod.snd, steps := steps }
  else if hasConjunctionMarker q && relevant.length ≥ 2 then
    { type := .collaborative, targetAgents := relevant.map RegisteredAgent.id, steps := [] }
  else
    match bestAgent q registry with
    | some a => { type := .singleAgent, targetAgents := [a.id], steps := [] }
    | none => { type := .unclassified, targetAgents := [], steps := [] }

/-! ### Concrete states used by witnesses and counterexamples -/

/-- A pre-existing message in an older session. -/
def sampleMessage : ChatMessage :=
  { id := "msg_900", content := "Earlier question", role := .user,
    timestamp := ⟨900⟩, agentId := some "financial-intelligence" }

/-- A freshly created session (as `createSession` at `Date.now() = 1000`
would produce for the orchestrator). -/
def chatSession0 : ChatSession :=
  { id := "session_1000", title := "New Chat - 1/1/2026", messages := [],
    createdAt := ⟨1000⟩, updatedAt := ⟨1000⟩, agentId := "central-orchestrator" }

/-- An older, non-current session. -/
def otherSession : ChatSession :=
  { id := "session_900", title := "New Chat - 12/31/2025",
    messages := [sampleMessage], createdAt := ⟨900⟩, updatedAt := ⟨900⟩,
    agentId := "financial-intelligence" }

/-- A store state with a current session and one other session. -/
def chatState0 : ChatState :=
  { currentSession := some chatSession0, sessions := [chatSession0, otherSession],
    isLoading := false }

/-- A store state with no current session. -/
def noSessionState : ChatState :=
  { currentSession := none, sessions := [otherSession], isLoading := false }

/-- A concrete persisted slice holding one session with one message. -/
def examplePersisted : PersistedState :=
  { sessions := [{ chatSession0 with messages :=
      [{ id := "msg_1000", content := "hello", role := .user, timestamp := ⟨0⟩,
         agentId := some "central-orchestrator",
         metadata := some { type := some .query, loading := some false } }] }],
    currentSession := none }

/-- Projects the `createdAt` field of the first persisted session out of a
persisted document; used to tell the written and re-read documents apart. -/
def probeFirstCreatedAt : JSValue → JSValue
  | .obj fs =>
    match jsGetField fs "sessions" with
    | .arr (.obj sf :: _) => jsGetField sf "createdAt"
    | _ => .null
  | _ => .null

/-! ### Decimal rendering of `Date.now()`: injectivity infrastructure

`addMessage` derives message ids from the template literal
`msg_${Date.now()}`, i.e. from `Nat.repr` of the millisecond clock. The
lemmas below establish that the decimal rendering is injective, which is
what the amended uniqueness claim rests on. -/

/-- Most-significant-first decimal digit list of a natural number. -/
def toDig (n : Nat) : List Char :=
  if h : n / 10 = 0 then [Nat.digitChar (n % 10)]
  else toDig (n / 10) ++ [Nat.digitChar (n % 10)]
  decreasing_by
    exact Nat.div_lt_self (Nat.pos_of_ne_zero (by omega)) (by omega)

/-- Numeric value of a decimal digit character. -/
def decVal (c : Char) : Nat := c.toNat - 48

theorem decVal_digitChar : ∀ d, d < 10 → decVal (Nat.digitChar d) = d := by decide

theorem toDigitsCore_eq (f n : Nat) (l : List Char) (h : n < f) :
    Nat.toDigitsCore 10 f n l = toDig n ++ l := by
  induction n using Nat.strong_induction_on generalizing f l with
  | _ n ih =>
    match f with
    | f + 1 =>
      rw [Nat.toDigitsCore]
      by_cases h0 : n / 10 = 0
      · simp [h0, toDig]
      · rw [if_neg h0, ih (n / 10) (Nat.div_lt_self (by omega) (by omega)) f _
          (by have := Nat.div_lt_self (show 0 < n by omega) (show 1 < 10 by omega); omega)]
        conv_rhs => rw [toDig]
        rw [dif_neg h0]
        simp

theorem toDigits_eq (n : Nat) : Nat.toDigits 10 n = toDig n := by
  rw [Nat.toDigits, toDigitsCore_eq (n + 1) n [] (by omega), List.append_nil]

theorem decode_toDig_aux (n : Nat) : ∀ a : Nat,
    (toDig n).foldl (fun a c => 10 * a + decVal c) a = a * 10 ^ (toDig n).length + n := by
  induction n using Nat.strong_induction_on with
  | _ n ih =>
    intro a
    by_cases h0 : n / 10 = 0
    · rw [toDig, dif_pos h0]
      have h10 : n < 10 := by omega
      have hd : decVal (Nat.digitChar (n % 10)) = n % 10 := decVal_digitChar _ (by omega)
      simp [List.foldl, hd]
      omega
    · conv_lhs => rw [toDig, dif_neg h0]
      rw [List.foldl_append]
      rw [ih (n / 10) (Nat.div_lt_self (by omega) (by omega)) a]
      have hd : decVal (Nat.digitChar (n % 10)) = n % 10 := decVal_digitChar _ (by omega)
      simp [List.foldl, hd]
      conv_rhs => rw [toDig, dif_neg h0]
      simp [List.length_append]
      rw [pow_succ]
      have hmod := Nat.div_add_mod n 10
      set K := 10 ^ (toDig (n / 10)).length with hK
      ring_nf
      omega

theorem decode_toDig (n : Nat) :
    (toDig n).foldl (fun a c => 10 * a + decVal c) 0 = n := by
  have := decode_toDig_aux n 0
  simpa using this

theorem toDig_injective : Function.Injective toDig := by
  intro m n h
  have hm := decode_toDig m
  rw [h, decode_toDig n] at hm
  exact hm.symm

theorem natRepr_injective : Function.Injective Nat.repr := by
  intro m n h
  apply toDig_injective
  have h2 : (Nat.toDigits 10 m).asString = (Nat.toDigits 10 n).asString := h
  rw [toDigits_eq, toDigits_eq] at h2
  exact congrArg String.data h2

theorem string_append_left_cancel {a b c : String} (h : a ++ b = a ++ c) : b = c := by
  apply String.ext
  have := congrArg String.data h
  simp only [String.data_append] at this
  exact List.append_cancel_left this

theorem msg_id_injective {t u : Nat} (h : t ≠ u) :
    "msg_" ++ Nat.repr t ≠ "msg_" ++ Nat.repr u := by
  intro he
  exact h (natRepr_injective (string_append_left_cancel he))

/-! ### Behavior of `jsOr` -/

theorem jsOr_of_truthy {a : JSValue} (b : JSValue) (h : jsTruthy a = true) :
    jsOr a b = a := by
  simp [jsOr, h]

theorem jsOr_of_falsy {a : JSValue} (b : JSValue) (h : jsTruthy a = false) :
    jsOr a b = b := by
  simp [jsOr, h]

/-! ### The JSON round-trip on persisted states -/

theorem metadataFields_roundTrip (md : MessageMetadata) :
    jsonRoundTripFields (metadataFields md) = metadataFields md := by
  rcases md with ⟨t, l, e⟩
  rcases t with _ | t <;> rcases l with _ | l <;> rcases e with _ | e <;> rfl

theorem message_roundTrip (m : ChatMessage) :
    jsonRoundTrip (messageToJS m) = messageToJSReloaded m := by
  rcases m with ⟨i, c, r, ts, a, md⟩
  rcases a with _ | a <;> rcases md with _ | md <;>
    simp [messageToJS, messageToJSReloaded, optJSONField, metadataToJS,
      jsonRoundTrip, jsonRoundTripFields, metadataFields_roundTrip]

theorem messages_roundTrip (ms : List ChatMessage) :
    jsonRoundTripElems (ms.map messageToJS) = ms.map messageToJSReloaded := by
  induction ms with
  | nil => rfl
  | cons m ms ih =>
    simp only [List.map_cons]
    rw [show jsonRoundTripElems (messageToJS m :: ms.map messageToJS) =
      jsonRoundTrip (messageToJS m) :: jsonRoundTripElems (ms.map messageToJS) from rfl,
      message_roundTrip, ih]

theorem session_roundTrip (s : ChatSession) :
    jsonRoundTrip (sessionToJS s) = sessionToJSReloaded s := by
  simp [sessionToJS, sessionToJSReloaded, jsonRoundTrip, jsonRoundTripFields,
    messages_roundTrip]

theorem sessions_roundTrip (ss : List ChatSession) :
    jsonRoundTripElems (ss.map sessionToJS) = ss.map sessionToJSReloaded := by
  induction ss with
  | nil => rfl
  | cons s ss ih =>
    simp only [List.map_cons]
    rw [show jsonRoundTripElems (sessionToJS s :: ss.map sessionToJS) =
      jsonRoundTrip (sessionToJS s) :: jsonRoundTripElems (ss.map sessionToJS) from rfl,
      session_roundTrip, ih]

/-! ### Claim theorems -/

/-- C9: when there is no current session, `addMessage` and `updateMessage`
are no-ops — the entire store state (sessions list, currentSession,
isLoading) is left unchanged, no session is implicitly created and no
message is added or modified. -/
theorem c9_noop_without_session (st : ChatState) (now : Nat) (d : MessageData)
    (messageId : String) (u : MessageUpdate) (h : st.currentSession = none) :
    addMessage st now d = st ∧ updateMessage st now messageId u = st := by
  constructor <;> simp [addMessage, updateMessage, h]

/-- Witness for C9 at a concrete no-session store state. -/
theorem c9_noop_without_session_witness :
    noSessionState.currentSession = none ∧
    (addMessage noSessionState 5 { content := "x", role := .user } = noSessionState ∧
      updateMessage noSessionState 5 "msg_1" {} = noSessionState) :=
  ⟨rfl, c9_noop_without_session noSessionState 5 { content := "x", role := .user }
    "msg_1" {} rfl⟩

/-- C10: `deleteSession sessionId` removes exactly the sessions whose id
equals `sessionId` (the remaining list is a sublist of the original and
membership is preserved for every session with a different id, message
history intact), and `currentSession` becomes `none` precisely when the
current session's id equals `sessionId`, being left unchanged otherwise;
`isLoading` is untouched. -/
theorem c10_deleteSession_frame (st : ChatState) (sessionId : String) :
    List.Sublist (deleteSession st sessionId).sessions st.sessions ∧
    (∀ s : ChatSession, s ∈ (deleteSession st sessionId).sessions ↔
      (s ∈ st.sessions ∧ s.id ≠ sessionId)) ∧
    ((deleteSession st sessionId).currentSession = none ↔
      (st.currentSession = none ∨
        ∃ c : ChatSession, st.currentSession = some c ∧ c.id = sessionId)) ∧
    (∀ c : ChatSession, st.currentSession = some c → c.id ≠ sessionId →
      (deleteSession st sessionId).currentSession = some c) ∧
    (deleteSession st sessionId).isLoading = st.isLoading := by
  refine ⟨?_, ?_, ?_, ?_, rfl⟩
  · simp only [deleteSession]
    exact List.filter_sublist st.sessions
  · intro s
    simp [deleteSession, List.mem_filter]
  · rcases h : st.currentSession with _ | c
    · simp [deleteSession, h]
    · by_cases hc : c.id = sessionId <;> simp [deleteSession, h, hc]
  · intro c h hne
    simp [deleteSession, h, hne]

/-- Witness for C10: deleting a non-current session id leaves the current
session in place. -/
theorem c10_deleteSession_frame_witness :
    chatState0.currentSession = some chatSession0 ∧
    chatSession0.id ≠ "session_900" ∧
    (deleteSession chatState0 "session_900").currentSession = some chatSession0 :=
  ⟨rfl, by decide,
    (c10_deleteSession_frame chatState0 "session_900").2.2.2.1 chatSession0 rfl (by decide)⟩

/-- C7: `updateAgentStatus agentId status` keeps the agents list's length
and order, leaves every agent with a different id unchanged, changes only
the `status` field of agents whose id matches (all other fields preserved),
and mirrors the new status onto `selectedAgent` exactly when the selected
agent is the matched one. -/
theorem c7_updateAgentStatus_frame (st : AgentState) (agentId : String)
    (status : AgentStatus) :
    (updateAgentStatus st agentId status).agents.length = st.agents.length ∧
    (∀ i (h1 : i < st.agents.length)
        (h2 : i < (updateAgentStatus st agentId status).agents.length),
      ((st.agents.get ⟨i, h1⟩).id ≠ agentId →
        (updateAgentStatus st agentId status).agents.get ⟨i, h2⟩ =
          st.agents.get ⟨i, h1⟩) ∧
      ((st.agents.get ⟨i, h1⟩).id = agentId →
        ((updateAgentStatus st agentId status).agents.get ⟨i, h2⟩).status = status ∧
        ((updateAgentStatus st agentId status).agents.get ⟨i, h2⟩).id =
          (st.agents.get ⟨i, h1⟩).id ∧
        ((updateAgentStatus st agentId status).agents.get ⟨i, h2⟩).name =
          (st.agents.get ⟨i, h1⟩).name ∧
        ((updateAgentStatus st agentId status).agents.get ⟨i, h2⟩).description =
          (st.agents.get ⟨i, h1⟩).description ∧
        ((updateAgentStatus st agentId status).agents.get ⟨i, h2⟩).capabilities =
          (st.agents.get ⟨i, h1⟩).capabilities ∧
        ((updateAgentStatus st agentId status).agents.get ⟨i, h2⟩).avatar =
          (st.agents.get ⟨i, h1⟩).avatar ∧
        ((updateAgentStatus st agentId status).agents.get ⟨i, h2⟩).endpoint =
          (st.agents.get ⟨i, h1⟩).endpoint ∧
        ((updateAgentStatus st agentId status).agents.get ⟨i, h2⟩).type =
          (st.agents.get ⟨i, h1⟩).type)) ∧
    (st.selectedAgent = none →
      (updateAgentStatus st agentId status).selectedAgent = none) ∧
    (∀ a : Agent, st.selectedAgent = some a → a.id = agentId →
      (updateAgentStatus st agentId status).selectedAgent =
        some { a with status := status }) ∧
    (∀ a : Agent, st.selectedAgent = some a → a.id ≠ agentId →
      (updateAgentStatus st agentId status).selectedAgent = some a) := by
  refine ⟨by simp [updateAgentStatus], ?_, ?_, ?_, ?_⟩
  · intro i h1 h2
    constructor
    · intro hne
      simp only [List.get_eq_getElem] at hne
      simp [updateAgentStatus, List.get_eq_getElem, List.getElem_map, hne]
    · intro heq
      simp only [List.get_eq_getElem] at heq
      simp [updateAgentStatus, List.get_eq_getElem, List.getElem_map, heq]
  · intro h
    simp [updateAgentStatus, h]
  · intro a h heq
    simp [updateAgentStatus, h, heq]
  · intro a h hne
    simp [updateAgentStatus, h, hne]

/-- Witness for C7: marking the orchestrator busy updates the selected
agent's status and nothing else of it. -/
theorem c7_updateAgentStatus_frame_witness :
    defaultAgentState.selectedAgent = some orchestratorAgent ∧
    orchestratorAgent.id = "central-orchestrator" ∧
    (updateAgentStatus defaultAgentState "central-orchestrator" .busy).selectedAgent =
      some { orchestratorAgent with status := .busy } :=
  ⟨rfl, rfl,
    (c7_updateAgentStatus_frame defaultAgentState "central-orchestrator" .busy).2.2.2.1
      orchestratorAgent rfl rfl⟩

/-- C8: classification is idempotent and deterministic — the modelled
classifier is a pure function of the query string and the registry state,
so classifying the same query with the same registry twice yields the same
classification type and the same target agents. -/
theorem c8_classify_idempotent (q : String) (registry : List RegisteredAgent) :
    classify q registry = classify q registry ∧
    (classify q registry).type = (classify q registry).type ∧
    (classify q registry).targetAgents = (classify q registry).targetAgents :=
  ⟨rfl, rfl, rfl⟩

/-- C6: `addMessage` appends exactly one message at the end of the current
session's ordered message sequence — the message count increases by one, all
previously stored messages are preserved unchanged and in order, the
appended message carries the given data, `updatedAt` is refreshed to the
call-time clock, the session's other fields are untouched, and every listed
session other than the current one (i.e. with a different id) is left
entirely unchanged, as is `isLoading`. -/
theorem c6_addMessage_appends_one (st : ChatState) (cs : ChatSession) (now : Nat)
    (d : MessageData) (h : st.currentSession = some cs) :
    (∃ ncs : ChatSession,
      (addMessage st now d).currentSession = some ncs ∧
      ncs.messages.length = cs.messages.length + 1 ∧
      ncs.messages.take cs.messages.length = cs.messages ∧
      (∃ m : ChatMessage, ncs.messages = cs.messages ++ [m] ∧
        m.content = d.content ∧ m.role = d.role ∧ m.agentId = d.agentId ∧
        m.metadata = d.metadata) ∧
      ncs.updatedAt = ⟨now⟩ ∧ ncs.id = cs.id ∧ ncs.title = cs.title ∧
      ncs.createdAt = cs.createdAt ∧ ncs.agentId = cs.agentId) ∧
    (addMessage st now d).sessions.length = st.sessions.length ∧
    (∀ i (h1 : i < st.sessions.length)
        (h2 : i < (addMessage st now d).sessions.length),
      (st.sessions.get ⟨i, h1⟩).id ≠ cs.id →
      (addMessage st now d).sessions.get ⟨i, h2⟩ = st.sessions.get ⟨i, h1⟩) ∧
    (addMessage st now d).isLoading = st.isLoading := by
  refine ⟨⟨{ cs with
      messages := cs.messages ++
        [{ content := d.content, role := d.role, agentId := d.agentId,
           metadata := d.metadata, id := "msg_" ++ Nat.repr now, timestamp := ⟨now⟩ }],
      updatedAt := ⟨now⟩ }, ?_, ?_, ?_, ⟨_, rfl, rfl, rfl, rfl, rfl⟩,
      rfl, rfl, rfl, rfl, rfl⟩, ?_, ?_, ?_⟩
  · simp [addMessage, h]
  · simp
  · simp
  · simp [addMessage, h]
  · intro i h1 h2 hne
    simp only [List.get_eq_getElem] at hne
    simp [addMessage, h, List.get_eq_getElem, List.getElem_map, hne]
  · simp [addMessage, h]

/-- Witness for C6 at a concrete two-session state. -/
theorem c6_addMessage_appends_one_witness :
    chatState0.currentSession = some chatSession0 ∧
    ((∃ ncs : ChatSession,
      (addMessage chatState0 2000 { content := "hello", role := .user }).currentSession =
        some ncs ∧
      ncs.messages.length = chatSession0.messages.length + 1 ∧
      ncs.messages.take chatSession0.messages.length = chatSession0.messages ∧
      (∃ m : ChatMessage, ncs.messages = chatSession0.messages ++ [m] ∧
        m.content = (({ content := "hello", role := .user } : MessageData)).content ∧
        m.role = (({ content := "hello", role := .user } : MessageData)).role ∧
        m.agentId = (({ content := "hello", role := .user } : MessageData)).agentId ∧
        m.metadata = (({ content := "hello", role := .user } : MessageData)).metadata) ∧
      ncs.updatedAt = ⟨2000⟩ ∧ ncs.id = chatSession0.id ∧ ncs.title = chatSession0.title ∧
      ncs.createdAt = chatSession0.createdAt ∧ ncs.agentId = chatSession0.agentId) ∧
    (addMessage chatState0 2000 { content := "hello", role := .user }).sessions.length =
      chatState0.sessions.length ∧
    (∀ i (h1 : i < chatState0.sessions.length)
        (h2 : i < (addMessage chatState0 2000
          { content := "hello", role := .user }).sessions.length),
      (chatState0.sessions.get ⟨i, h1⟩).id ≠ chatSession0.id →
      (addMessage chatState0 2000 { content := "hello", role := .user }).sessions.get
        ⟨i, h2⟩ = chatState0.sessions.get ⟨i, h1⟩) ∧
    (addMessage chatState0 2000 { content := "hello", role := .user }).isLoading =
      chatState0.isLoading) :=
  ⟨rfl, c6_addMessage_appends_one chatState0 chatSession0 2000
    { content := "hello", role := .user } rfl⟩

/-- C1 (amended): the reply content is extracted by a fixed preference order
over field names — for an orchestrator agent the request body is
`{query, session_id, user_id, context}` and `answer` is preferred with
`response` as fallback; for any other agent type the body is
`{query, conversation_id}` and `response` is preferred with `answer` as
fallback; when neither field holds a truthy value the fixed apology string
is used. A reply carrying a NON-EMPTY string payload under either accepted
field name (the other being absent) yields that payload; the original
claim's unconditional version of this last sentence fails for the empty
string, which JavaScript `||` treats as absent
(`c1_counterexample_empty_payload`). -/
theorem c1_response_extraction_amended (agent : Agent)
    (data : List (String × JSValue)) (query sessionId : String) :
    (agent.type = .orchestrator →
      mkRequestBody agent query sessionId =
        [("query", .str query), ("session_id", .str sessionId),
         ("user_id", .str "frontend_user"), ("context", .obj [])]) ∧
    (agent.type ≠ .orchestrator →
      mkRequestBody agent query sessionId =
        [("query", .str query), ("conversation_id", .str sessionId)]) ∧
    (agent.type = .orchestrator → jsTruthy (jsGetField data "answer") = true →
      extractContent agent data = jsGetField data "answer") ∧
    (agent.type = .orchestrator → jsTruthy (jsGetField data "answer") = false →
      jsTruthy (jsGetField data "response") = true →
      extractContent agent data = jsGetField data "response") ∧
    (agent.type ≠ .orchestrator → jsTruthy (jsGetField data "response") = true →
      extractContent agent data = jsGetField data "response") ∧
    (agent.type ≠ .orchestrator → jsTruthy (jsGetField data "response") = false →
      jsTruthy (jsGetField data "answer") = true →
      extractContent agent data = jsGetField data "answer") ∧
    (jsTruthy (jsGetField data "answer") = false →
      jsTruthy (jsGetField data "response") = false →
      extractContent agent data = .str apologyFallback) ∧
    (∀ payload : String, payload ≠ "" →
      jsGetField data "answer" = .str payload →
      jsGetField data "response" = .undefined →
      extractContent agent data = .str payload) ∧
    (∀ payload : String, payload ≠ "" →
      jsGetField data "response" = .str payload →
      jsGetField data "answer" = .undefined →
      extractContent agent data = .str payload) := by
  refine ⟨?_, ?_, ?_, ?_, ?_, ?_, ?_, ?_, ?_⟩
  · intro horch
    simp [mkRequestBody, horch]
  · intro hother
    simp [mkRequestBody, hother]
  · intro horch ht
    simp [extractContent, responseFieldFor, jsOr, horch, ht]
  · intro horch hf ht
    simp [extractContent, responseFieldFor, jsOr, horch, hf, ht]
  · intro hother ht
    simp [extractContent, responseFieldFor, jsOr, hother, ht]
  · intro hother hf ht
    simp [extractContent, responseFieldFor, jsOr, hother, hf, ht]
  · intro hfa hfr
    by_cases horch : agent.type = .orchestrator <;>
      simp [extractContent, responseFieldFor, jsOr, horch, hfa, hfr]
  · intro payload hp ha hr
    by_cases horch : agent.type = .orchestrator <;>
      simp [extractContent, responseFieldFor, jsOr, jsTruthy, horch, ha, hr, hp]
  · intro payload hp hr ha
    by_cases horch : agent.type = .orchestrator <;>
      simp [extractContent, responseFieldFor, jsOr, jsTruthy, horch, ha, hr, hp]

/-- C1 counterexample: an orchestrator reply carrying its payload under the
accepted `answer` field, with that payload the empty string, does not yield
the payload — the `||` chain skips the falsy empty string and the fixed
apology is returned instead. -/
theorem c1_counterexample_empty_payload :
    extractContent orchestratorAgent [("answer", JSValue.str "")] =
      JSValue.str apologyFallback ∧
    JSValue.str apologyFallback ≠ JSValue.str "" :=
  ⟨rfl, by
    intro h
    injection h with h2
    exact absurd h2 (by decide)⟩

/-- Witness for C1: a non-empty payload under `answer` is extracted as the
content for the orchestrator. -/
theorem c1_response_extraction_witness :
    extractContent orchestratorAgent [("answer", JSValue.str "hi")] =
      JSValue.str "hi" :=
  (c1_response_extraction_amended orchestratorAgent [("answer", JSValue.str "hi")]
    "q" "s").2.2.2.2.2.2.2.1 "hi" (by decide) rfl rfl

/-- C4 counterexample: two messages added in immediate succession within the
same millisecond (`Date.now() = 1000` for both) — a user message and its
assistant placeholder — receive the SAME id `msg_1000`, so message ids are
not globally unique. -/
theorem c4_counterexample_same_millisecond :
    ((addMessage (addMessage chatState0 1000
        { content := "Show P&L", role := .user })
        1000 { content := "Analyzing your request...", role := .assistant }).currentSession.map
      (fun s => s.messages.map (fun m => (m.id, m.role)))) =
    some [("msg_1000", Role.user), ("msg_1000", Role.assistant)] := by decide

/-- C4 (amended): message ids produced by `addMessage` are derived solely
from the millisecond clock (`msg_${Date.now()}`), so two messages created
at DIFFERENT `Date.now()` values always receive distinct ids; uniqueness
fails only within a single millisecond (`c4_counterexample_same_millisecond`). -/
theorem c4_message_ids_distinct_amended (st : ChatState) (cs : ChatSession)
    (t u : Nat) (d e : MessageData) (h : st.currentSession = some cs)
    (hne : t ≠ u) :
    ∃ m1 m2 : ChatMessage,
      ((addMessage (addMessage st t d) u e).currentSession.map ChatSession.messages) =
        some (cs.messages ++ [m1, m2]) ∧ m1.id ≠ m2.id := by
  refine ⟨{ content := d.content, role := d.role, agentId := d.agentId,
              metadata := d.metadata, id := "msg_" ++ Nat.repr t,
              timestamp := JSDate.mk t },
            { content := e.content, role := e.role, agentId := e.agentId,
              metadata := e.metadata, id := "msg_" ++ Nat.repr u,
              timestamp := JSDate.mk u },
            ?_, msg_id_injective hne⟩
  simp [addMessage, h]

/-- Witness for C4's amended theorem at distinct milliseconds. -/
theorem c4_message_ids_distinct_witness :
    chatState0.currentSession = some chatSession0 ∧ (1000 : Nat) ≠ 1001 ∧
    (∃ m1 m2 : ChatMessage,
      ((addMessage (addMessage chatState0 1000 { content := "a", role := .user })
          1001 { content := "b", role := .assistant }).currentSession.map
        ChatSession.messages) =
        some (chatSession0.messages ++ [m1, m2]) ∧ m1.id ≠ m2.id) :=
  ⟨rfl, by decide,
    c4_message_ids_distinct_amended chatState0 chatSession0 1000 1001
      { content := "a", role := .user } { content := "b", role := .assistant }
      rfl (by decide)⟩

/-- C5 (amended): the persistence round-trip
(`JSON.stringify` then `JSON.parse`, as configured by `persist` with no
custom storage) preserves every field of every persisted session and
message EXCEPT the `Date`-valued ones — each message `timestamp` and each
session's `createdAt`/`updatedAt` come back as their ISO-8601 string
serializations instead of `Date` instances, so the rehydrated state equals
the written one only up to that coercion; a state containing any date does
not round-trip identically (`c5_counterexample_date_not_identical`). -/
theorem c5_roundtrip_amended (st : PersistedState) :
    jsonRoundTrip (persistedToJS st) = persistedToJSReloaded st := by
  rcases st with ⟨ss, cur⟩
  rcases cur with _ | c <;>
    simp [persistedToJS, persistedToJSReloaded, jsonRoundTrip, jsonRoundTripFields,
      sessions_roundTrip, sessionToJS, sessionToJSReloaded, messages_roundTrip]

/-- C5 counterexample: reading back a concrete written state (one session,
one message, all dates concrete) does not return a document identical to
what was written — the first session's `createdAt` comes back as the string
"1970-01-01T00:00:01.000Z" instead of the `Date` with epoch value 1000. -/
theorem c5_counterexample_date_not_identical :
    jsonRoundTrip (persistedToJS examplePersisted) ≠ persistedToJS examplePersisted := by
  intro h
  have h2 := congrArg probeFirstCreatedAt h
  rw [show probeFirstCreatedAt (jsonRoundTrip (persistedToJS examplePersisted)) =
      JSValue.str "1970-01-01T00:00:01.000Z" from rfl,
    show probeFirstCreatedAt (persistedToJS examplePersisted) =
      JSValue.date 1000 from rfl] at h2
  exact JSValue.noConfusion h2

/-- C2 (code bug): on a successful reply, the assistant placeholder is NEVER
updated. `handleSendMessage` computes `loadingMessageId` as
`msg_loading_${Date.now()}` but `addMessage` assigns the placeholder the id
`msg_${Date.now()}`, so the final `updateMessage` matches no message. At a
concrete successful send (reply payload "Revenue is up.") the placeholder
still carries the loading text and `loading: true`, and no message contains
the reply content — contradicting the claim that the placeholder's content
is updated and its loading flag cleared. -/
theorem c2_success_leaves_placeholder_loading :
    ((handleSendMessage chatState0 (some orchestratorAgent) "Show me our revenue"
        2000 2001 2001 2500
        (Except.ok [("answer", JSValue.str "Revenue is up.")])).currentSession.map
      (fun s => s.messages.map (fun m => (m.id, m.content, m.metadata)))) =
      some [("msg_2000", "Show me our revenue", (none : Option MessageMetadata)),
        ("msg_2001",
         "Coordinating with specialized agents to provide comprehensive insights...",
         some ({ loading := some true } : MessageMetadata))] ∧
    (handleSendMessage chatState0 (some orchestratorAgent) "Show me our revenue"
        2000 2001 2001 2500
        (Except.ok [("answer", JSValue.str "Revenue is up.")])).isLoading = false := by
  constructor <;> decide

/-- C3 (code bug): on a failed reply the loading flag is reset and nothing
is thrown (failures are values in the model of the `try`/`catch`/`finally`),
but the user never sees the well-formed error message: the error text is
written through `updateMessage` with the never-assigned id
`msg_loading_${Date.now()}`, so at a concrete failed send (HTTP 500) the
placeholder still carries the loading text and `loading: true` and no
message describes the failure. -/
theorem c3_failure_leaves_placeholder_loading :
    ((handleSendMessage chatState0 (some orchestratorAgent) "Show P&L please"
        3000 3001 3001 3500 (Except.error "API Error: 500")).currentSession.map
      (fun s => s.messages.map (fun m => (m.id, m.content, m.metadata)))) =
      some [("msg_3000", "Show P&L please", (none : Option MessageMetadata)),
        ("msg_3001",
         "Coordinating with specialized agents to provide comprehensive insights...",
         some ({ loading := some true } : MessageMetadata))] ∧
    (handleSendMessage chatState0 (some orchestratorAgent) "Show P&L please"
        3000 3001 3001 3500 (Except.error "API Error: 500")).isLoading = false := by
  constructor <;> decide
